import Mathlib

/-!
Shallow embedding of the EcoGuard environmental-monitoring core: the
ingestion-normalization-scoring-fanout pipeline of the ecoguard-env-monitoring
repository. Numeric record fields are modelled over `ℚ` (JS numbers used for
coordinates, magnitudes and severities), millisecond timestamps over `ℤ`
(`Date.getTime()` values), and the risk-assessment decay mathematics over `ℝ`
(the source uses `Math.exp`, `Math.sin`, `Math.cos`, `Math.atan2`,
`Math.sqrt`).
-/

namespace EcoGuard

/-- Axis-aligned bounding box `[minLng, minLat, maxLng, maxLat]` as produced by
the adapters' `calculate*BoundingBox` helpers. -/
structure BBox where
  minLng : ℚ
  minLat : ℚ
  maxLng : ℚ
  maxLat : ℚ
  deriving DecidableEq, Repr

/-- A stored Event document (`src/backend/src/models/Event.ts`), restricted to
the fields the claims touch.  `geometry` is a point `[lng, lat]`; free-form
`properties` are omitted (no claim depends on them). -/
structure EventDoc where
  id : String
  source : String
  etype : String
  severity : ℚ
  confidence : ℚ
  lng : ℚ
  lat : ℚ
  area_bbox : BBox
  starts_at : ℤ
  ingested_at : ℤ
  deriving DecidableEq, Repr

/-- `Event.findOneAndUpdate({ _id: eventId }, eventData, { upsert: true, new: true })`.
The update document sets every field, so the write either inserts `doc` or
replaces the existing document with id `doc.id` by `doc`; because `new: true`
makes MongoDB return the post-write document and every field was just set, the
returned document is `doc` itself in both the insert and the update case. -/
def findOneAndUpdateUpsertNew (store : List EventDoc) (doc : EventDoc) :
    EventDoc × List EventDoc :=
  if store.any (fun e => e.id == doc.id) then
    (doc, store.map (fun e => if e.id == doc.id then doc else e))
  else
    (doc, store ++ [doc])

namespace USGSService

/-- `const eventId = ` the string `usgs-` followed by `feature.id`. -/
def usgsEventId (featureId : String) : String := "usgs-" ++ featureId

/-- One feature of the USGS geojson feed, restricted to the consumed fields:
`feature.id`, `feature.properties.mag`, `feature.geometry.coordinates[0..1]`,
`feature.properties.time`. -/
structure USGSFeature where
  fid : String
  mag : ℚ
  lng : ℚ
  lat : ℚ
  time : ℤ
  deriving DecidableEq, Repr

/-- `USGSService.calculateBoundingBox`: radius `max(10, magnitude * 50)` km,
converted to degrees at 111 km per degree. -/
def calculateBoundingBox (lng lat magnitude : ℚ) : BBox :=
  let radiusKm := max 10 (magnitude * 50)
  let radiusDegrees := radiusKm / 111
  ⟨lng - radiusDegrees, lat - radiusDegrees, lng + radiusDegrees, lat + radiusDegrees⟩

/-- The `eventData` object built for a feature inside `ingestEarthquakes`
(`now` is the `new Date()` taken at ingestion). -/
def usgsEventData (f : USGSFeature) (now : ℤ) : EventDoc :=
  { id := usgsEventId f.fid
    source := "usgs"
    etype := "earthquake"
    severity := f.mag
    confidence := 0.95
    lng := f.lng
    lat := f.lat
    area_bbox := calculateBoundingBox f.lng f.lat f.mag
    starts_at := f.time
    ingested_at := now }

/-- One iteration of the `for (const feature of data.features)` loop of
`ingestEarthquakes`: skip magnitudes below 2.5, upsert, then classify as
insert when the returned document's `ingested_at` equals the one just
written (`result.ingested_at.getTime() === eventData.ingested_at.getTime()`),
else as update. -/
def processFeature (st : List EventDoc) (counts : ℕ × ℕ) (f : USGSFeature)
    (now : ℤ) : List EventDoc × ℕ × ℕ :=
  if f.mag < 2.5 then (st, counts)
  else
    let eventData := usgsEventData f now
    let res := findOneAndUpdateUpsertNew st eventData
    if res.1.ingested_at == eventData.ingested_at then (res.2, counts.1 + 1, counts.2)
    else (res.2, counts.1, counts.2 + 1)

/-- `USGSService.ingestEarthquakes` over an already-fetched feature list:
returns the updated store together with the `(inserted, updated)` counters. -/
def ingestEarthquakes (st : List EventDoc) (features : List USGSFeature)
    (now : ℤ) : List EventDoc × ℕ × ℕ :=
  features.foldl (fun acc f => processFeature acc.1 acc.2 f now) (st, 0, 0)

end USGSService

namespace OpenWeatherService

/-- `alert.event.replace(/\s+/g, '-')`: every maximal run of whitespace
characters becomes a single `-`. The flag records whether the previous
character was inside a whitespace run. -/
def collapseWhitespaceAux : List Char → Bool → List Char
  | [], _ => []
  | c :: cs, inRun =>
    if c.isWhitespace then
      if inRun then collapseWhitespaceAux cs true
      else '-' :: collapseWhitespaceAux cs true
    else c :: collapseWhitespaceAux cs false

def collapseWhitespace (s : String) : String :=
  String.mk (collapseWhitespaceAux s.data false)

/-- Weather-alert event id:
`openweather-` + location name + `-` + `alert.start` + `-` + sanitized `alert.event`. -/
def openWeatherAlertEventId (locationName : String) (alertStart : ℤ)
    (alertEvent : String) : String :=
  "openweather-" ++ locationName ++ "-" ++ toString alertStart ++ "-" ++
    collapseWhitespace alertEvent

/-- Synthetic severe-weather storm event id:
`openweather-severe-` + location name + `-` + `Date.now()`. -/
def severeWeatherEventId (locationName : String) (nowMs : ℤ) : String :=
  "openweather-severe-" ++ locationName ++ "-" ++ toString nowMs

/-- `OpenWeatherService.calculateAlertBoundingBox`: radius
`max(5, severity * 10)` km at 111 km per degree. -/
def calculateAlertBoundingBox (lng lat severity : ℚ) : BBox :=
  let radiusKm := max 5 (severity * 10)
  let radiusDegrees := radiusKm / 111
  ⟨lng - radiusDegrees, lat - radiusDegrees, lng + radiusDegrees, lat + radiusDegrees⟩

/-- The `eventData` object built in the severe-weather branch of
`ingestWeatherAlerts` (`starts_at: new Date()`, `ingested_at: new Date()`). -/
def severeWeatherEventData (locationName : String) (lng lat severity : ℚ)
    (nowMs : ℤ) : EventDoc :=
  { id := severeWeatherEventId locationName nowMs
    source := "openweather"
    etype := "storm"
    severity := severity
    confidence := 0.80
    lng := lng
    lat := lat
    area_bbox := calculateAlertBoundingBox lng lat severity
    starts_at := nowMs
    ingested_at := nowMs }

/-- The severe-weather branch of `ingestWeatherAlerts`: upsert the synthetic
storm event and increment `inserted` unconditionally (the source does
`inserted++` with no insert-vs-update comparison on this path). -/
def ingestSevereWeather (st : List EventDoc) (locationName : String)
    (lng lat severity : ℚ) (nowMs : ℤ) : List EventDoc × ℕ :=
  let res := findOneAndUpdateUpsertNew st
    (severeWeatherEventData locationName lng lat severity nowMs)
  (res.2, 1)

end OpenWeatherService

namespace NASAService

/-- EONET event id: `nasa-eonet-` + the feed's own `event.id`. -/
def eonetEventId (upstreamId : String) : String := "nasa-eonet-" ++ upstreamId

/-- FIRMS fire event id: `nasa-firms-` + country + `-` + `fireData.acq_date`
+ `-` + lat.toFixed(4) + `-` + lng.toFixed(4); the formatted coordinate
strings are taken as given. -/
def firmsEventId (countryCode acqDate latFixed lngFixed : String) : String :=
  "nasa-firms-" ++ countryCode ++ "-" ++ acqDate ++ "-" ++ latFixed ++ "-" ++ lngFixed

end NASAService

namespace OpenAQService

/-- Air-quality event id: `openaq-` + country + `-` + location key +
`-` + the ingestion-time UTC date (`new Date().toISOString().split('T')[0]`). -/
def openaqEventId (country locationKey ingestDate : String) : String :=
  "openaq-" ++ country ++ "-" ++ locationKey ++ "-" ++ ingestDate

/-- `OpenAQService.aqiToSeverity`: stepwise AQI-to-severity mapping. -/
def aqiToSeverity (aqi : ℚ) : ℚ :=
  if aqi ≤ 50 then 2
  else if aqi ≤ 100 then 4
  else if aqi ≤ 150 then 6
  else if aqi ≤ 200 then 7.5
  else if aqi ≤ 300 then 9
  else 10

/-- `OpenAQService.calculateAQIBoundingBox`: radius
`max(5, min(50, aqi / 4))` km at 111 km per degree. -/
def calculateAQIBoundingBox (lng lat aqi : ℚ) : BBox :=
  let radiusKm := max 5 (min 50 (aqi / 4))
  let radiusDegrees := radiusKm / 111
  ⟨lng - radiusDegrees, lat - radiusDegrees, lng + radiusDegrees, lat + radiusDegrees⟩

/-- The `eventData` object built for one location group inside
`ingestAirQualityData`. -/
def openaqEventData (country locationKey : String) (lng lat aqi : ℚ)
    (ingestDate : String) (startsAt now : ℤ) : EventDoc :=
  { id := openaqEventId country locationKey ingestDate
    source := "openaq"
    etype := "aqi"
    severity := aqiToSeverity aqi
    confidence := 0.85
    lng := lng
    lat := lat
    area_bbox := calculateAQIBoundingBox lng lat aqi
    starts_at := startsAt
    ingested_at := now }

/-- One location iteration of `ingestAirQualityData`: `if (aqiData.aqi <= 100)
continue;` — locations at or below AQI 100 are skipped before any write;
otherwise the event is upserted. -/
def processLocation (st : List EventDoc) (country locationKey : String)
    (lng lat aqi : ℚ) (ingestDate : String) (startsAt now : ℤ) : List EventDoc :=
  if aqi ≤ 100 then st
  else (findOneAndUpdateUpsertNew st
    (openaqEventData country locationKey lng lat aqi ingestDate startsAt now)).2

end OpenAQService

namespace AlertService

/-- A stored Subscription, restricted to the fields the fanout matching uses:
a point location and the channel list. -/
structure Sub where
  sid : String
  lng : ℚ
  lat : ℚ
  channels : List String
  deriving DecidableEq, Repr

/-- `$geoWithin: { $box: [[minLng, minLat], [maxLng, maxLat]] }` — an
axis-aligned containment test with inclusive bounds. -/
def inBBox (b : BBox) (lng lat : ℚ) : Bool :=
  decide (b.minLng ≤ lng ∧ lng ≤ b.maxLng ∧ b.minLat ≤ lat ∧ lat ≤ b.maxLat)

/-- `AlertService.findAffectedSubscriptions`: subscriptions whose location lies
inside the event's `area_bbox`, restricted to documents with a non-empty
`channels` array (`channels: { $exists: true, $ne: [] }`). -/
def findAffectedSubscriptions (subs : List Sub) (e : EventDoc) : List Sub :=
  subs.filter (fun s => inBBox e.area_bbox s.lng s.lat && !s.channels.isEmpty)

/-- The `events:global` broadcast payload (`io.emit('events:global', ...)`),
carrying the event reference; the human-readable `message` title (built by
`generateAlertContent`) is elided, no claim depends on its text. -/
structure GlobalNotice where
  eventId : String
  etype : String
  severity : ℚ
  lng : ℚ
  lat : ℚ
  deriving DecidableEq, Repr

/-- `AlertService.processEventAlerts`: find the affected subscriptions; when
none match, return early (`if (affectedSubscriptions.length === 0) return;`)
— before the `events:global` broadcast; otherwise dispatch to each affected
subscription and publish the global notice. The result is the pair
(dispatch targets, optional global notice). -/
def processEventAlerts (subs : List Sub) (e : EventDoc) :
    List Sub × Option GlobalNotice :=
  let affected := findAffectedSubscriptions subs e
  if affected.isEmpty then ([], none)
  else (affected, some ⟨e.id, e.etype, e.severity, e.lng, e.lat⟩)

/-- The event query of `AlertService.processNewEvents`: `ingested_at` within
the last 10 minutes, `severity ≥ 4.0`, optionally filtered by type. -/
def eventQueryFilter (now : ℤ) (eventType : Option String) (e : EventDoc) : Bool :=
  decide (now - 10 * 60 * 1000 ≤ e.ingested_at ∧ (4 : ℚ) ≤ e.severity) &&
    (match eventType with
     | none => true
     | some t => e.etype == t)

/-- `AlertService.processNewEvents`: run `processEventAlerts` on every recent
high-severity event. -/
def processNewEvents (now : ℤ) (eventType : Option String)
    (events : List EventDoc) (subs : List Sub) :
    List (List Sub × Option GlobalNotice) :=
  (events.filter (eventQueryFilter now eventType)).map (processEventAlerts subs)

/-- An event row as read back by `assessCurrentRisk`'s store query (point
geometry, severity, start time in ms). -/
structure RiskEvent where
  etype : String
  severity : ℝ
  lng : ℝ
  lat : ℝ
  starts_at : ℝ

/-- `Math.atan2(y, x)`, via the complex argument. -/
noncomputable def atan2 (y x : ℝ) : ℝ := Complex.arg ⟨x, y⟩

/-- `AlertService.calculateDistance`: haversine distance, Earth radius 6371 km. -/
noncomputable def calculateDistance (lat1 lng1 lat2 lng2 : ℝ) : ℝ :=
  let dLat := (lat2 - lat1) * Real.pi / 180
  let dLng := (lng2 - lng1) * Real.pi / 180
  let a := Real.sin (dLat / 2) * Real.sin (dLat / 2) +
    Real.cos (lat1 * Real.pi / 180) * Real.cos (lat2 * Real.pi / 180) *
      (Real.sin (dLng / 2) * Real.sin (dLng / 2))
  let c := 2 * atan2 (Real.sqrt a) (Real.sqrt (1 - a))
  6371 * c

/-- `AlertService.calculateTimeDecay`:
`hoursAgo = (Date.now() - eventTime.getTime()) / (1000*60*60)`,
`max(0.1, exp(-hoursAgo / 12))`. -/
noncomputable def calculateTimeDecay (now startsAt : ℝ) : ℝ :=
  let hoursAgo := (now - startsAt) / (1000 * 60 * 60)
  max 0.1 (Real.exp (-hoursAgo / 12))

/-- `AlertService.calculateDistanceDecay`: `max(0.1, 1 - distance / maxRadius)`. -/
noncomputable def calculateDistanceDecay (distance maxRadius : ℝ) : ℝ :=
  max 0.1 (1 - distance / maxRadius)

/-- `adjustedSeverity = event.severity * timeDecay * distanceDecay` as computed
inside `assessCurrentRisk` for one event. -/
noncomputable def adjustedSeverity (now lat lng radiusKm : ℝ) (e : RiskEvent) : ℝ :=
  e.severity * calculateTimeDecay now e.starts_at *
    calculateDistanceDecay (calculateDistance lat lng e.lat e.lng) radiusKm

/-- The per-hazard-type score of `assessCurrentRisk`: starts at 0 and takes
`risk.score = Math.max(risk.score, adjustedSeverity)` over the retrieved
events of that type. -/
noncomputable def riskTypeScore (now lat lng radiusKm : ℝ) (etype : String)
    (events : List RiskEvent) : ℝ :=
  (events.filter (fun e => e.etype == etype)).foldl
    (fun score e => max score (adjustedSeverity now lat lng radiusKm e)) 0

end AlertService

namespace SubscriptionsRoute

/-- JS truthiness of an optional string field (`undefined`, `null` and the
empty string are falsy). -/
def jsTruthyStr : Option String → Bool
  | none => false
  | some s => !s.isEmpty

/-- A stored Subscription document (`src/backend/src/models/Subscription.ts`),
with the push subscription reduced to its endpoint (object truthiness —
any present object is truthy). -/
structure SubDoc where
  sid : String
  email : Option String
  phone : Option String
  pushEndpoint : Option String
  lng : ℚ
  lat : ℚ
  radius_km : ℚ
  channels : List String
  deriving DecidableEq, Repr

/-- The channel-contact invariant of §3: every listed channel has its
corresponding contact datum present. -/
def channelInvariant (s : SubDoc) : Prop :=
  ("email" ∈ s.channels → jsTruthyStr s.email = true) ∧
  ("sms" ∈ s.channels → jsTruthyStr s.phone = true) ∧
  ("webpush" ∈ s.channels → s.pushEndpoint.isSome = true)

instance (s : SubDoc) : Decidable (channelInvariant s) := by
  unfold channelInvariant
  infer_instance

/-- The request body of `POST /` (subscription creation): optional contact
fields, a `{lat, lng}` location, radius and channel list. -/
structure PostBody where
  email : Option String
  phone : Option String
  push : Option String
  location : Option (ℚ × ℚ)
  radius_km : Option ℚ
  channels : Option (List String)
  deriving DecidableEq, Repr

/-- `router.post('/')` validation and document construction: location, channel
list and radius checks, then the three channel-contact checks, then the
subscription document (`email: email || undefined` turns falsy contact strings
into absent fields). The upsert-by-contact-identity store interaction keeps
the constructed document either way. -/
def postSubscription (body : PostBody) : Except String SubDoc :=
  match body.location with
  | none => .error "Location (lat, lng) is required"
  | some loc =>
    if loc.1 = 0 ∨ loc.2 = 0 then .error "Location (lat, lng) is required"
    else match body.channels with
    | none => .error "At least one notification channel is required"
    | some channels =>
      if channels.isEmpty then .error "At least one notification channel is required"
      else match body.radius_km with
      | none => .error "Radius must be between 1 and 100 km"
      | some r =>
        if r < 1 ∨ 100 < r then .error "Radius must be between 1 and 100 km"
        else if decide ("email" ∈ channels) && !jsTruthyStr body.email then
          .error "Email is required for email notifications"
        else if decide ("sms" ∈ channels) && !jsTruthyStr body.phone then
          .error "Phone number is required for SMS notifications"
        else if decide ("webpush" ∈ channels) && !body.push.isSome then
          .error "Push subscription is required for web push notifications"
        else .ok
          { sid := "generated-uuid"
            email := if jsTruthyStr body.email then body.email else none
            phone := if jsTruthyStr body.phone then body.phone else none
            pushEndpoint := body.push
            lng := loc.2
            lat := loc.1
            radius_km := r
            channels := channels }

/-- The request body of `PUT /:subscriptionId`: any subset of fields may be
present; a present field is applied as a `$set`. -/
structure PutBody where
  email : Option (Option String)
  phone : Option (Option String)
  push : Option (Option String)
  location : Option (ℚ × ℚ)
  radius_km : Option ℚ
  channels : Option (List String)
  deriving DecidableEq, Repr

/-- Applying the `$set` updates of the PUT handler to the stored document
(the handler only deletes `_id`/`created_at` and re-wraps `location`). -/
def applyUpdates (old : SubDoc) (u : PutBody) : SubDoc :=
  { old with
    email := u.email.getD old.email
    phone := u.phone.getD old.phone
    pushEndpoint := u.push.getD old.pushEndpoint
    lng := (u.location.map Prod.snd).getD old.lng
    lat := (u.location.map Prod.fst).getD old.lat
    radius_km := u.radius_km.getD old.radius_km
    channels := u.channels.getD old.channels }

/-- The schema validators that `runValidators: true` runs on the updated
paths: the `radius_km` min/max bounds and the `channels` enum. The
Subscription schema has no validator tying channels to contact fields. -/
def putValidate (u : PutBody) : Bool :=
  (match u.radius_km with
   | some r => decide (1 ≤ r ∧ r ≤ 100)
   | none => true) &&
  (match u.channels with
   | some cs => cs.all (fun c => c == "webpush" || c == "email" || c == "sms")
   | none => true)

/-- `router.put('/:subscriptionId')`: apply the updates, running only the
schema validators. -/
def putSubscription (old : SubDoc) (u : PutBody) : Except String SubDoc :=
  if putValidate u then .ok (applyUpdates old u)
  else .error "Failed to update subscription"

end SubscriptionsRoute

namespace IngestRoute

/-- The settled outcome of one source adapter in the batch (`Promise.allSettled`). -/
inductive SourceOutcome where
  | fulfilled (inserted updated : ℕ)
  | rejected (errMsg : String)
  deriving DecidableEq, Repr

/-- One entry of the `results` array of `POST /all`. A rejected source
contributes `{source, success: false, error}`; its absent `inserted`/`updated`
keys are read back as 0 by the totals (`r.inserted || 0`). -/
structure SourceResult where
  source : String
  success : Bool
  inserted : ℕ
  updated : ℕ
  error : Option String
  deriving DecidableEq, Repr

def toResult (source : String) : SourceOutcome → SourceResult
  | .fulfilled i u => ⟨source, true, i, u, none⟩
  | .rejected m => ⟨source, false, 0, 0, some m⟩

/-- The JSON body of the `POST /all` response. -/
structure BatchResponse where
  total_sources : ℕ
  total_inserted : ℕ
  total_updated : ℕ
  results : List SourceResult
  deriving DecidableEq, Repr

/-- `router.post('/all')`: `Promise.allSettled` over FOUR adapters — USGS,
NASA EONET, OpenWeather and OpenAQ; NASA FIRMS is not part of the batch —
then one result entry per source in that order and totals summed with
`(r.inserted || 0)` / `(r.updated || 0)`. -/
def batchIngestAll (usgs eonet weather aq : SourceOutcome) : BatchResponse :=
  let results := [toResult "usgs" usgs, toResult "nasa-eonet" eonet,
    toResult "openweather" weather, toResult "openaq" aq]
  { total_sources := results.length
    total_inserted := results.foldl (fun s r => s + r.inserted) 0
    total_updated := results.foldl (fun s r => s + r.updated) 0
    results := results }

/-- Inserted count contributed to the totals by one settled outcome
(`r.inserted || 0`: a rejected source contributes 0). -/
def insertedOf : SourceOutcome → ℕ
  | .fulfilled i _ => i
  | .rejected _ => 0

/-- Updated count contributed to the totals by one settled outcome. -/
def updatedOf : SourceOutcome → ℕ
  | .fulfilled _ u => u
  | .rejected _ => 0

end IngestRoute

namespace RiskRoute

/-- The bounding-box validation of `GET /heatmap`: after
`bbox.split(',').map(Number)`, the test `if (!west || !south || !east ||
!north)` rejects by numeric truthiness, so any coordinate equal to 0 is
refused (the scope here is a bbox string that parsed to four numbers). -/
def heatmapValidateBBox (west south east north : ℚ) :
    Except String (ℚ × ℚ × ℚ × ℚ) :=
  if west = 0 ∨ south = 0 ∨ east = 0 ∨ north = 0 then
    .error "Invalid bounding box format. Use: west,south,east,north"
  else .ok (west, south, east, north)

end RiskRoute

/-! Theorems settling the claims. -/

/-- C1: ingesting the same upstream USGS record twice does leave exactly one
stored Event whose mutable fields reflect the latest ingestion, but the second
`ingest()` call classifies the record as an INSERT, not an update: with
`new: true` the returned post-write document's `ingested_at` always equals the
value just written, so the comparison at USGSService.ts:58 takes the
`inserted++` branch on both calls and the `updated` counter can never move.
Here the second call over a store already holding the record returns counters
`(inserted, updated) = (1, 0)`, contradicting the claimed classification. -/
theorem usgs_reingest_classified_as_insert :
    USGSService.ingestEarthquakes
        (USGSService.ingestEarthquakes [] [⟨"abc", 5, 101, 3, 100⟩] 1000).1
        [⟨"abc", 5, 101, 3, 100⟩] 2000
      = ([USGSService.usgsEventData ⟨"abc", 5, 101, 3, 100⟩ 2000], 1, 0) := by
  have h : ¬ ((5 : ℚ) < 2.5) := by norm_num
  simp [USGSService.ingestEarthquakes, USGSService.processFeature,
    USGSService.usgsEventData, USGSService.usgsEventId,
    findOneAndUpdateUpsertNew, h]

/-- C2 counterexample: an event that the fanout engine processes (ingested
just now, severity 5 ≥ 4.0) with zero subscriptions inside its `area_bbox`
produces NO `events:global` notice — `processEventAlerts` returns at
`if (affectedSubscriptions.length === 0) return;` before the broadcast. -/
theorem global_notice_skipped_without_subscribers :
    AlertService.processNewEvents 1000000 none
      [{ id := "usgs-abc", source := "usgs", etype := "earthquake", severity := 5,
         confidence := 0.95, lng := 101, lat := 3, area_bbox := ⟨100, 2, 102, 4⟩,
         starts_at := 900000, ingested_at := 1000000 }] []
      = [([], none)] := by
  rfl

/-- C2 amended: the coarse new-event notice is published to the global
broadcast channel if and only if at least one subscription (with a non-empty
channel list) falls inside the event's `area_bbox`; with zero matches the
function returns before the broadcast. -/
theorem global_notice_iff_subscriber_match (subs : List AlertService.Sub)
    (e : EventDoc) :
    (AlertService.processEventAlerts subs e).2.isSome = true ↔
      AlertService.findAffectedSubscriptions subs e ≠ [] := by
  cases h : AlertService.findAffectedSubscriptions subs e with
  | nil => simp [AlertService.processEventAlerts, h]
  | cons s rest => simp [AlertService.processEventAlerts, h]

/-- C3 counterexample: for the feed record with magnitude 5.2 at (lat 3, lng
101) the stored bbox is `[101 - 260/111, 3 - 260/111, 101 + 260/111,
3 + 260/111] = [10951/111, 73/111, 11471/111, 593/111] ≈ [98.658, 0.658,
103.342, 5.342]`: `radius_km = max(10, 5.2 × 50) = 260` gives `260/111 ≈
2.342` degrees, and every coordinate of the claimed box `[100.766, 2.766,
101.234, 3.234]` (which corresponds to a 26 km radius) is more than 2 degrees
away from the actual value. -/
theorem seismic_bbox_not_as_claimed :
    (USGSService.usgsEventData ⟨"q", 26/5, 101, 3, 0⟩ 7).area_bbox =
        ⟨10951/111, 73/111, 11471/111, 593/111⟩ ∧
    (10951 / 111 : ℚ) < 100.766 - 2 ∧ (73 / 111 : ℚ) < 2.766 - 2 ∧
    101.234 + 2 < (11471 / 111 : ℚ) ∧ 3.234 + 2 < (593 / 111 : ℚ) := by
  refine ⟨?_, by norm_num, by norm_num, by norm_num, by norm_num⟩
  simp only [USGSService.usgsEventData, USGSService.calculateBoundingBox]
  norm_num [max_def]

/-- C3 amended: ingesting a seismic feed record with magnitude 5.2 at lat 3.0,
lng 101.0 stores one Event with type "earthquake", severity 5.2, and
`area_bbox = [101 - 260/111, 3 - 260/111, 101 + 260/111, 3 + 260/111]`
≈ `[98.658, 0.658, 103.342, 5.342]`, where the box is derived from
`radius_km = max(10, magnitude × 50) = 260` converted to degrees at 111 km per
degree. -/
theorem seismic_scenario_ingestion :
    USGSService.ingestEarthquakes [] [⟨"q", 26/5, 101, 3, 0⟩] 7 =
      ([{ id := "usgs-q", source := "usgs", etype := "earthquake",
          severity := 26/5, confidence := 0.95, lng := 101, lat := 3,
          area_bbox := ⟨101 - 260/111, 3 - 260/111, 101 + 260/111, 3 + 260/111⟩,
          starts_at := 0, ingested_at := 7 }], 1, 0) := by
  have h : ¬ ((26 / 5 : ℚ) < 2.5) := by norm_num
  have hmax : max (10 : ℚ) (26 / 5 * 50) = 260 := by norm_num
  simp [USGSService.ingestEarthquakes, USGSService.processFeature,
    USGSService.usgsEventData, USGSService.usgsEventId,
    USGSService.calculateBoundingBox, findOneAndUpdateUpsertNew, h, hmax]

/-- C7 counterexample: with the seismic source failing and every other batched
source succeeding, the aggregate result has only FOUR per-source entries (NASA
FIRMS, the fire-detection adapter, is not run by `POST /all` at all), hence 3
successes and 1 failure — not the claimed 4 successes out of five sources.
Totals still sum over the fulfilled sources only. -/
theorem batch_runs_four_sources_not_five :
    (IngestRoute.batchIngestAll (.rejected "upstream unreachable")
        (.fulfilled 1 2) (.fulfilled 3 4) (.fulfilled 5 6)).results.length = 4 ∧
    ((IngestRoute.batchIngestAll (.rejected "upstream unreachable")
        (.fulfilled 1 2) (.fulfilled 3 4) (.fulfilled 5 6)).results.filter
      (fun r => r.success)).length = 3 ∧
    ((IngestRoute.batchIngestAll (.rejected "upstream unreachable")
        (.fulfilled 1 2) (.fulfilled 3 4) (.fulfilled 5 6)).results.all
      (fun r => !(r.source == "nasa-firms"))) = true ∧
    (IngestRoute.batchIngestAll (.rejected "upstream unreachable")
        (.fulfilled 1 2) (.fulfilled 3 4) (.fulfilled 5 6)).total_inserted = 9 ∧
    (IngestRoute.batchIngestAll (.rejected "upstream unreachable")
        (.fulfilled 1 2) (.fulfilled 3 4) (.fulfilled 5 6)).total_updated = 12 := by
  decide

/-- C7 amended: the aggregate call runs FOUR source adapters (seismic,
orbital-event, weather-alert, air-quality — fire-detection is absent), reports
each source's outcome independently (a rejected source contributes a
`success: false` entry carrying its error message and contributes 0 to the
totals), and the total inserted/updated counts are the sums over fulfilled
sources only; in particular, if the seismic source fails and the other three
succeed, the result reports 3 successes and 1 failure with the seismic error
message. -/
theorem batch_reports_per_source (u e w a : IngestRoute.SourceOutcome)
    (m : String) (i1 u1 i2 u2 i3 u3 : ℕ) :
    (IngestRoute.batchIngestAll u e w a).results.length = 4 ∧
    (IngestRoute.batchIngestAll u e w a).total_inserted =
      IngestRoute.insertedOf u + IngestRoute.insertedOf e +
        IngestRoute.insertedOf w + IngestRoute.insertedOf a ∧
    (IngestRoute.batchIngestAll u e w a).total_updated =
      IngestRoute.updatedOf u + IngestRoute.updatedOf e +
        IngestRoute.updatedOf w + IngestRoute.updatedOf a ∧
    ((IngestRoute.batchIngestAll (.rejected m) (.fulfilled i1 u1)
        (.fulfilled i2 u2) (.fulfilled i3 u3)).results.filter
      (fun r => r.success)).length = 3 ∧
    ((IngestRoute.batchIngestAll (.rejected m) (.fulfilled i1 u1)
        (.fulfilled i2 u2) (.fulfilled i3 u3)).results.filter
      (fun r => !r.success)) = [⟨"usgs", false, 0, 0, some m⟩] ∧
    (IngestRoute.batchIngestAll (.rejected m) (.fulfilled i1 u1)
        (.fulfilled i2 u2) (.fulfilled i3 u3)).total_inserted = i1 + i2 + i3 ∧
    (IngestRoute.batchIngestAll (.rejected m) (.fulfilled i1 u1)
        (.fulfilled i2 u2) (.fulfilled i3 u3)).total_updated = u1 + u2 + u3 := by
  refine ⟨rfl, ?_, ?_, ?_, ?_, ?_, ?_⟩
  · cases u <;> cases e <;> cases w <;> cases a <;>
      simp [IngestRoute.batchIngestAll, IngestRoute.toResult,
        IngestRoute.insertedOf]
  · cases u <;> cases e <;> cases w <;> cases a <;>
      simp [IngestRoute.batchIngestAll, IngestRoute.toResult,
        IngestRoute.updatedOf]
  · simp [IngestRoute.batchIngestAll, IngestRoute.toResult]
  · simp [IngestRoute.batchIngestAll, IngestRoute.toResult]
  · simp [IngestRoute.batchIngestAll, IngestRoute.toResult]
  · simp [IngestRoute.batchIngestAll, IngestRoute.toResult]

/-- C5 counterexample: the synthetic severe-weather storm event id embeds
`Date.now()`, so the same severe conditions at the same location observed by
two polls (at t = 1000 ms and t = 2000 ms) get two distinct ids and the
second poll stores a second Event instead of updating the first. -/
theorem severe_weather_reingest_duplicates :
    OpenWeatherService.severeWeatherEventId "kuala-lumpur" 1000 ≠
      OpenWeatherService.severeWeatherEventId "kuala-lumpur" 2000 ∧
    (OpenWeatherService.ingestSevereWeather
        (OpenWeatherService.ingestSevereWeather [] "kuala-lumpur" 101 3 5 1000).1
        "kuala-lumpur" 101 3 5 2000).1.length = 2 := by
  refine ⟨by decide, by decide⟩

/-- C5 amended: the seismic, orbital-event, fire-detection and weather-alert
adapters derive the Event id deterministically from the record's source data,
so re-ingesting the same upstream record cannot create a second stored Event
(shown for the seismic path: two ingestions of the same feature at different
times leave exactly one stored Event under its id); but the air-quality id
additionally embeds the ingestion-time UTC date (stable only within one day),
and the synthetic severe-weather storm id embeds the current millisecond
timestamp, so each later poll observing the same conditions creates a new
stored Event. -/
theorem event_id_stability (f : USGSService.USGSFeature) (t1 t2 : ℤ)
    (hmag : ¬ f.mag < 2.5) :
    (USGSService.ingestEarthquakes
        (USGSService.ingestEarthquakes [] [f] t1).1 [f] t2).1.map (fun e => e.id)
      = [USGSService.usgsEventId f.fid] ∧
    (OpenWeatherService.ingestSevereWeather
        (OpenWeatherService.ingestSevereWeather [] "penang" 100 5 4 1000).1
        "penang" 100 5 4 2000).1.length = 2 ∧
    OpenAQService.openaqEventId "MY" "3.1390-101.6869" "2025-01-01" ≠
      OpenAQService.openaqEventId "MY" "3.1390-101.6869" "2025-01-02" := by
  refine ⟨?_, by decide, by decide⟩
  simp [USGSService.ingestEarthquakes, USGSService.processFeature,
    USGSService.usgsEventData, findOneAndUpdateUpsertNew, hmag]

/-- C5 witness: the amended statement at the concrete feature
(id "abc", magnitude 5) ingested at t = 1000 then t = 2000. -/
theorem event_id_stability_witness :
    (¬ ((5 : ℚ) < 2.5)) ∧
    ((USGSService.ingestEarthquakes
        (USGSService.ingestEarthquakes [] [⟨"abc", 5, 101, 3, 100⟩] 1000).1
        [⟨"abc", 5, 101, 3, 100⟩] 2000).1.map (fun e => e.id)
      = [USGSService.usgsEventId "abc"] ∧
    (OpenWeatherService.ingestSevereWeather
        (OpenWeatherService.ingestSevereWeather [] "penang" 100 5 4 1000).1
        "penang" 100 5 4 2000).1.length = 2 ∧
    OpenAQService.openaqEventId "MY" "3.1390-101.6869" "2025-01-01" ≠
      OpenAQService.openaqEventId "MY" "3.1390-101.6869" "2025-01-02") :=
  ⟨by norm_num, event_id_stability ⟨"abc", 5, 101, 3, 100⟩ 1000 2000 (by norm_num)⟩

/-- C6 counterexample: a stored subscription with channels ["email"] and an
email contact, updated via `PUT /:subscriptionId` with body
`{channels: ["sms"]}`: the update passes the schema validators (no
channel-contact check runs on this path) and persists a subscription listing
channel "sms" with no phone number — violating the invariant. -/
theorem put_persists_channel_without_contact :
    SubscriptionsRoute.putSubscription
        ⟨"sub-1", some "user@example.com", none, none, 101, 3, 25, ["email"]⟩
        ⟨none, none, none, none, none, some ["sms"]⟩
      = .ok ⟨"sub-1", some "user@example.com", none, none, 101, 3, 25, ["sms"]⟩ ∧
    ¬ SubscriptionsRoute.channelInvariant
        ⟨"sub-1", some "user@example.com", none, none, 101, 3, 25, ["sms"]⟩ := by
  constructor
  · rfl
  · decide

/-- C6 amended: the creation path rejects, before persisting, every
subscription state in which some listed channel lacks its contact datum —
every document the POST handler accepts satisfies the channel-contact
invariant; the update path enforces only the schema validators and does not
check the invariant (see the counterexample). -/
theorem post_enforces_channel_invariant (body : SubscriptionsRoute.PostBody)
    (d : SubscriptionsRoute.SubDoc)
    (h : SubscriptionsRoute.postSubscription body = .ok d) :
    SubscriptionsRoute.channelInvariant d := by
  unfold SubscriptionsRoute.postSubscription at h
  cases hl : body.location with
  | none => rw [hl] at h; exact absurd h (by simp)
  | some loc =>
    rw [hl] at h
    dsimp only at h
    split at h
    · exact absurd h (by simp)
    cases hc : body.channels with
    | none => rw [hc] at h; exact absurd h (by simp)
    | some channels =>
      rw [hc] at h
      dsimp only at h
      split at h
      · exact absurd h (by simp)
      cases hr : body.radius_km with
      | none => rw [hr] at h; exact absurd h (by simp)
      | some r =>
        rw [hr] at h
        dsimp only at h
        split at h
        · exact absurd h (by simp)
        split at h
        · exact absurd h (by simp)
        split at h
        · exact absurd h (by simp)
        split at h
        · exact absurd h (by simp)
        rename_i hemail hsms hpush
        injection h with h
        subst h
        refine ⟨fun hm => ?_, fun hm => ?_, fun hm => ?_⟩
        · cases hjs : SubscriptionsRoute.jsTruthyStr body.email with
          | false => exact absurd (by simp [hm, hjs]) hemail
          | true => simp [hjs]
        · cases hjs : SubscriptionsRoute.jsTruthyStr body.phone with
          | false => exact absurd (by simp [hm, hjs]) hsms
          | true => simp [hjs]
        · cases hp : body.push.isSome with
          | false => exact absurd (by simp [hm, hp]) hpush
          | true => rfl

/-- C6 witness: a valid creation request (email contact, channel "email")
is accepted and the persisted document satisfies the invariant. -/
theorem post_enforces_channel_invariant_witness :
    SubscriptionsRoute.postSubscription
        ⟨some "user@example.com", none, none, some (3, 101), some 25, some ["email"]⟩
      = .ok ⟨"generated-uuid", some "user@example.com", none, none, 101, 3, 25,
          ["email"]⟩ ∧
    SubscriptionsRoute.channelInvariant
        ⟨"generated-uuid", some "user@example.com", none, none, 101, 3, 25,
          ["email"]⟩ :=
  ⟨rfl, post_enforces_channel_invariant
    ⟨some "user@example.com", none, none, some (3, 101), some 25, some ["email"]⟩
    ⟨"generated-uuid", some "user@example.com", none, none, 101, 3, 25, ["email"]⟩
    rfl⟩

/-- Membership in an upserted store: an element of the post-write store was
either already stored or is the written document. -/
theorem mem_findOneAndUpdateUpsertNew (st : List EventDoc) (doc e : EventDoc)
    (h : e ∈ (findOneAndUpdateUpsertNew st doc).2) : e ∈ st ∨ e = doc := by
  unfold findOneAndUpdateUpsertNew at h
  split at h
  · dsimp only at h
    rcases List.mem_map.mp h with ⟨x, hx, hxe⟩
    by_cases hid : (x.id == doc.id) = true
    · rw [if_pos hid] at hxe
      exact Or.inr hxe.symm
    · rw [if_neg hid] at hxe
      exact Or.inl (hxe ▸ hx)
  · dsimp only at h
    rcases List.mem_append.mp h with hx | hx
    · exact Or.inl hx
    · exact Or.inr (List.mem_singleton.mp hx)

/-- C9: every air-quality Event newly persisted by the OpenAQ location loop
has severity at least 6.0: the location is skipped before any write unless
its overall AQI exceeds 100 (`if (aqiData.aqi <= 100) continue;`), and the
stepwise `aqiToSeverity` mapping assigns at least 6.0 to every AQI above 100
(6.0 up to 150, 7.5 up to 200, 9.0 up to 300, 10.0 beyond). -/
theorem openaq_persisted_severity_ge_six (st : List EventDoc)
    (country locationKey : String) (lng lat aqi : ℚ) (ingestDate : String)
    (startsAt now : ℤ) (e : EventDoc)
    (he : e ∈ OpenAQService.processLocation st country locationKey lng lat aqi
      ingestDate startsAt now)
    (hnew : e ∉ st) :
    ¬ aqi ≤ 100 ∧ e.severity = OpenAQService.aqiToSeverity aqi ∧
      6 ≤ e.severity := by
  unfold OpenAQService.processLocation at he
  by_cases haqi : aqi ≤ 100
  · rw [if_pos haqi] at he
    exact absurd he hnew
  · rw [if_neg haqi] at he
    rcases mem_findOneAndUpdateUpsertNew _ _ _ he with hmem | rfl
    · exact absurd hmem hnew
    · refine ⟨haqi, rfl, ?_⟩
      show (6 : ℚ) ≤ OpenAQService.aqiToSeverity aqi
      unfold OpenAQService.aqiToSeverity
      rw [if_neg fun hc => haqi (le_trans hc (by norm_num)), if_neg haqi]
      split_ifs <;> norm_num

/-- C9 witness: one location with overall AQI 150 ingested into an empty
store persists one event, with severity `aqiToSeverity 150 = 6 ≥ 6`. -/
theorem openaq_persisted_severity_ge_six_witness :
    (OpenAQService.openaqEventData "MY" "3.1390-101.6869" 101 3 150
        "2025-01-01" 0 5 ∈
      OpenAQService.processLocation [] "MY" "3.1390-101.6869" 101 3 150
        "2025-01-01" 0 5) ∧
    (¬ (150 : ℚ) ≤ 100 ∧
      (OpenAQService.openaqEventData "MY" "3.1390-101.6869" 101 3 150
          "2025-01-01" 0 5).severity = OpenAQService.aqiToSeverity 150 ∧
      6 ≤ (OpenAQService.openaqEventData "MY" "3.1390-101.6869" 101 3 150
          "2025-01-01" 0 5).severity) := by
  have hm : OpenAQService.openaqEventData "MY" "3.1390-101.6869" 101 3 150
      "2025-01-01" 0 5 ∈
      OpenAQService.processLocation [] "MY" "3.1390-101.6869" 101 3 150
        "2025-01-01" 0 5 := by
    unfold OpenAQService.processLocation
    rw [if_neg (by norm_num)]
    simp [findOneAndUpdateUpsertNew]
  exact ⟨hm, openaq_persisted_severity_ge_six [] "MY" "3.1390-101.6869" 101 3
    150 "2025-01-01" 0 5 _ hm (List.not_mem_nil _)⟩

/-- `Math.atan2(0, 1) = 0`: the argument of the positive real unit. -/
theorem atan2_zero_one : AlertService.atan2 0 1 = 0 := by
  unfold AlertService.atan2
  have h1 : (⟨1, 0⟩ : ℂ) = 1 := by
    apply Complex.ext <;> simp
  rw [h1, Complex.arg_one]

/-- The haversine distance from a point to itself is 0. -/
theorem calculateDistance_self (lat lng : ℝ) :
    AlertService.calculateDistance lat lng lat lng = 0 := by
  unfold AlertService.calculateDistance
  simp [sub_self, Real.sin_zero, Real.sqrt_zero, Real.sqrt_one, atan2_zero_one]

/-- The haversine distance is nonnegative: `atan2` is applied to a
nonnegative y-coordinate (`Math.sqrt(a) ≥ 0`), where the complex argument is
nonnegative. -/
theorem calculateDistance_nonneg (lat1 lng1 lat2 lng2 : ℝ) :
    0 ≤ AlertService.calculateDistance lat1 lng1 lat2 lng2 := by
  unfold AlertService.calculateDistance AlertService.atan2
  refine mul_nonneg (by norm_num) (mul_nonneg (by norm_num) ?_)
  exact Complex.arg_nonneg_iff.mpr (Real.sqrt_nonneg _)

/-- The time decay never falls below its 0.1 floor. -/
theorem calculateTimeDecay_ge (now startsAt : ℝ) :
    0.1 ≤ AlertService.calculateTimeDecay now startsAt := by
  unfold AlertService.calculateTimeDecay
  exact le_max_left _ _

/-- For an event that has already started the time decay is at most 1. -/
theorem calculateTimeDecay_le_one (now startsAt : ℝ) (h : startsAt ≤ now) :
    AlertService.calculateTimeDecay now startsAt ≤ 1 := by
  unfold AlertService.calculateTimeDecay
  have h1 : 0 ≤ (now - startsAt) / (1000 * 60 * 60) :=
    div_nonneg (sub_nonneg.mpr h) (by norm_num)
  have hle : Real.exp (-((now - startsAt) / (1000 * 60 * 60)) / 12) ≤ 1 := by
    rw [show (1 : ℝ) = Real.exp 0 from Real.exp_zero.symm]
    apply Real.exp_le_exp.mpr
    linarith
  exact max_le (by norm_num) hle

/-- The distance decay never falls below its 0.1 floor. -/
theorem calculateDistanceDecay_ge (d r : ℝ) :
    0.1 ≤ AlertService.calculateDistanceDecay d r := by
  unfold AlertService.calculateDistanceDecay
  exact le_max_left _ _

/-- For a nonnegative distance and positive radius the distance decay is at
most 1. -/
theorem calculateDistanceDecay_le_one (d r : ℝ) (hd : 0 ≤ d) (hr : 0 < r) :
    AlertService.calculateDistanceDecay d r ≤ 1 := by
  unfold AlertService.calculateDistanceDecay
  have h1 : 0 ≤ d / r := div_nonneg hd hr.le
  apply max_le (by norm_num)
  linarith

/-- For a past-dated event within the 0–10 severity domain the adjusted
severity stays at most 10. -/
theorem adjustedSeverity_le_ten (now lat lng radiusKm : ℝ)
    (e : AlertService.RiskEvent) (hr : 0 < radiusKm) (h0 : 0 ≤ e.severity)
    (h10 : e.severity ≤ 10) (hp : e.starts_at ≤ now) :
    AlertService.adjustedSeverity now lat lng radiusKm e ≤ 10 := by
  unfold AlertService.adjustedSeverity
  have htd1 := calculateTimeDecay_le_one now e.starts_at hp
  have htd0 : (0 : ℝ) ≤ AlertService.calculateTimeDecay now e.starts_at :=
    le_trans (by norm_num) (calculateTimeDecay_ge now e.starts_at)
  have hdd1 := calculateDistanceDecay_le_one
    (AlertService.calculateDistance lat lng e.lat e.lng) radiusKm
    (calculateDistance_nonneg lat lng e.lat e.lng) hr
  have s1 : e.severity * AlertService.calculateTimeDecay now e.starts_at ≤
      e.severity := mul_le_of_le_one_right h0 htd1
  have s0 : 0 ≤ e.severity * AlertService.calculateTimeDecay now e.starts_at :=
    mul_nonneg h0 htd0
  have s2 : e.severity * AlertService.calculateTimeDecay now e.starts_at *
      AlertService.calculateDistanceDecay
        (AlertService.calculateDistance lat lng e.lat e.lng) radiusKm ≤
      e.severity * AlertService.calculateTimeDecay now e.starts_at :=
    mul_le_of_le_one_right s0 hdd1
  linarith

/-- The initial accumulator bounds a `Math.max` fold from below. -/
theorem foldl_max_init_le (f : AlertService.RiskEvent → ℝ)
    (l : List AlertService.RiskEvent) (acc : ℝ) :
    acc ≤ l.foldl (fun s e => max s (f e)) acc := by
  induction l generalizing acc with
  | nil => simp
  | cons x xs ih =>
    simp only [List.foldl_cons]
    exact le_trans (le_max_left acc (f x)) (ih (max acc (f x)))

/-- A `Math.max` fold stays below any bound on the accumulator and on every
folded value. -/
theorem foldl_max_le_bound (f : AlertService.RiskEvent → ℝ)
    (l : List AlertService.RiskEvent) (acc B : ℝ) (hacc : acc ≤ B)
    (hf : ∀ e ∈ l, f e ≤ B) :
    l.foldl (fun s e => max s (f e)) acc ≤ B := by
  induction l generalizing acc with
  | nil => simpa using hacc
  | cons x xs ih =>
    simp only [List.foldl_cons]
    exact ih (max acc (f x)) (max_le hacc (hf x (List.mem_cons_self x xs)))
      (fun e he => hf e (List.mem_cons_of_mem x he))

/-- C4 counterexample: an event allowed by the store query (its `starts_at`
lies within the last 24 hours — here 24 hours in the FUTURE, which the query
`starts_at >= now - 24h` does not exclude), with severity 10 (inside the 0–10
domain), located at the query point: `hoursAgo = -24` gives
`time_decay = exp 2 > 1` and `distance_decay = 1`, so the per-type earthquake
score is `10 · exp 2 > 10`. -/
theorem risk_score_exceeds_ten_for_future_event :
    10 < AlertService.riskTypeScore 0 3 101 25 "earthquake"
      [⟨"earthquake", 10, 101, 3, 86400000⟩] := by
  have hexp : (3 : ℝ) ≤ Real.exp 2 := by
    have := Real.add_one_le_exp (2 : ℝ)
    linarith
  have ht : AlertService.calculateTimeDecay 0 86400000 = Real.exp 2 := by
    unfold AlertService.calculateTimeDecay
    have harg : -(((0 : ℝ) - 86400000) / (1000 * 60 * 60)) / 12 = 2 := by
      norm_num
    rw [show (max 0.1 (Real.exp (-(((0 : ℝ) - 86400000) / (1000 * 60 * 60)) / 12)))
        = max 0.1 (Real.exp 2) from by rw [harg]]
    exact max_eq_right (by linarith)
  have hd : AlertService.calculateDistanceDecay
      (AlertService.calculateDistance 3 101 3 101) 25 = 1 := by
    rw [calculateDistance_self]
    unfold AlertService.calculateDistanceDecay
    have h1 : (1 : ℝ) - 0 / 25 = 1 := by norm_num
    rw [h1, max_eq_right (by norm_num : (0.1 : ℝ) ≤ 1)]
  have hadj : AlertService.adjustedSeverity 0 3 101 25
      ⟨"earthquake", 10, 101, 3, 86400000⟩ = 10 * Real.exp 2 := by
    unfold AlertService.adjustedSeverity
    dsimp only
    rw [ht, hd]
    ring
  unfold AlertService.riskTypeScore
  simp only [List.filter_cons, List.filter_nil, beq_self_eq_true, if_true,
    List.foldl_cons, List.foldl_nil, hadj]
  rw [max_eq_right (by positivity : (0 : ℝ) ≤ 10 * Real.exp 2)]
  nlinarith

/-- C4 amended: for every query point, positive radius and store contents,
each per-hazard-type score is at least 0 (the fold starts at 0 and only takes
`Math.max`); and provided every retrieved event has severity in the 0–10
domain and a `starts_at` not in the future, each per-type score is also at
most 10. (The counterexample shows the upper bound fails for future-dated
events, which the 24-hour query window admits.) -/
theorem assess_risk_type_score_bounds (now lat lng radiusKm : ℝ)
    (etype : String) (events : List AlertService.RiskEvent)
    (hr : 0 < radiusKm)
    (hsev : ∀ e ∈ events, 0 ≤ e.severity ∧ e.severity ≤ 10)
    (hpast : ∀ e ∈ events, e.starts_at ≤ now) :
    0 ≤ AlertService.riskTypeScore now lat lng radiusKm etype events ∧
      AlertService.riskTypeScore now lat lng radiusKm etype events ≤ 10 := by
  unfold AlertService.riskTypeScore
  constructor
  · exact foldl_max_init_le _ _ 0
  · refine foldl_max_le_bound _ _ _ _ (by norm_num) ?_
    intro e he
    have he' : e ∈ events := List.mem_of_mem_filter he
    exact adjustedSeverity_le_ten now lat lng radiusKm e hr (hsev e he').1
      (hsev e he').2 (hpast e he')

/-- C4 witness: the bounds at a concrete query (radius 25) over one
earthquake of severity 5 starting exactly now at the query point. -/
theorem assess_risk_type_score_bounds_witness :
    0 ≤ AlertService.riskTypeScore 0 3 101 25 "earthquake"
        [⟨"earthquake", 5, 101, 3, 0⟩] ∧
      AlertService.riskTypeScore 0 3 101 25 "earthquake"
        [⟨"earthquake", 5, 101, 3, 0⟩] ≤ 10 :=
  assess_risk_type_score_bounds 0 3 101 25 "earthquake"
    [⟨"earthquake", 5, 101, 3, 0⟩] (by norm_num)
    (by
      intro e he
      rcases List.mem_singleton.mp he with rfl
      refine ⟨by dsimp only; norm_num, by dsimp only; norm_num⟩)
    (by
      intro e he
      rcases List.mem_singleton.mp he with rfl
      dsimp only
      norm_num)

/-- C8: the distance decay is exactly `max(0.1, 1 - d/r)` and an event at the
query radius boundary (d = r) contributes decay 0.1, not 0; the time decay is
exactly `max(0.1, exp(-h/12))` for the elapsed hours
`h = (now - starts_at) / (1000·60·60)` and never falls below 0.1, however
old the event is. -/
theorem decay_floor_properties (d r now startsAt : ℝ) (hr : 0 < r)
    (_hpast : startsAt ≤ now) :
    AlertService.calculateDistanceDecay d r = max 0.1 (1 - d / r) ∧
    AlertService.calculateDistanceDecay r r = 0.1 ∧
    AlertService.calculateTimeDecay now startsAt =
      max 0.1 (Real.exp (-((now - startsAt) / (1000 * 60 * 60)) / 12)) ∧
    0.1 ≤ AlertService.calculateTimeDecay now startsAt := by
  refine ⟨rfl, ?_, rfl, calculateTimeDecay_ge now startsAt⟩
  unfold AlertService.calculateDistanceDecay
  rw [div_self (ne_of_gt hr), sub_self, max_eq_left (by norm_num)]

/-- C8 witness: the decay floors at d = 5, r = 2, now = 7, starts_at = 3. -/
theorem decay_floor_properties_witness :
    (0 : ℝ) < 2 ∧ (3 : ℝ) ≤ 7 ∧
    (AlertService.calculateDistanceDecay 5 2 = max 0.1 (1 - 5 / 2) ∧
     AlertService.calculateDistanceDecay 2 2 = 0.1 ∧
     AlertService.calculateTimeDecay 7 3 =
       max 0.1 (Real.exp (-(((7 : ℝ) - 3) / (1000 * 60 * 60)) / 12)) ∧
     0.1 ≤ AlertService.calculateTimeDecay 7 3) :=
  ⟨by norm_num, by norm_num,
    decay_floor_properties 5 2 7 3 (by norm_num) (by norm_num)⟩

/-- C10: any heatmap request whose bbox string parses to four numbers is
rejected as an invalid bounding box whenever one of west, south, east, north
equals 0 — the numeric-truthiness test `!west || !south || !east || !north`
refuses a well-formed box with an edge on the equator or prime meridian. -/
theorem heatmap_rejects_zero_edge_bbox (west south east north : ℚ)
    (h : west = 0 ∨ south = 0 ∨ east = 0 ∨ north = 0) :
    RiskRoute.heatmapValidateBBox west south east north =
      .error "Invalid bounding box format. Use: west,south,east,north" := by
  unfold RiskRoute.heatmapValidateBBox
  rw [if_pos h]

/-- C10 witness: the box "0,-5,10,5" — a genuine region (west < east, south <
north) with its western edge on the prime meridian — is refused. -/
theorem heatmap_rejects_zero_edge_bbox_witness :
    ((0 : ℚ) = 0 ∨ (-5 : ℚ) = 0 ∨ (10 : ℚ) = 0 ∨ (5 : ℚ) = 0) ∧
    (0 : ℚ) < 10 ∧ (-5 : ℚ) < 5 ∧
    RiskRoute.heatmapValidateBBox 0 (-5) 10 5 =
      .error "Invalid bounding box format. Use: west,south,east,north" :=
  ⟨Or.inl rfl, by norm_num, by norm_num,
    heatmap_rejects_zero_edge_bbox 0 (-5) 10 5 (Or.inl rfl)⟩

end EcoGuard
